import Mathlib

/-!
Shallow embedding of the function-pipeline executor of `src/lib/utils/pipe.ts`,
the retry strategies of the retry-strategy module, and the auth controller parts
of `src/hooks/use-auth.ts` that the verified properties talk about.

Values flowing through a pipeline are modelled by a type parameter `α`
(the TypeScript code is generic over `unknown`).  A JavaScript `throw` is
modelled by `Except Thrown`, where `Thrown` distinguishes `Error` instances
from arbitrary thrown values (which the source only ever observes through
`String(v)` and `instanceof Error`).  Asynchronous execution is modelled with
explicit virtual time: an async step settles after a stated number of
milliseconds, and executors return the total awaited time next to the result.
-/

set_option autoImplicit false

mutual
/-- The pipeline error taxonomy: the five error classes of pipe.ts
(`PipeExecutionError`, `PipeValidationError`, `PipeTimeoutError`,
`PipeRetryError`, `PipeAbortError`), with the constructor fields of each
class: message plus, respectively, step/originalError, index,
timeoutMs/step, attempts/lastError, step. -/
inductive PipeError where
  | execution (message : String) (step : Nat) (originalError : Option JsError)
  | validation (message : String) (index : Nat)
  | timeout (message : String) (timeoutMs : Nat) (step : Nat)
  | retry (message : String) (attempts : Nat) (lastError : JsError)
  | abort (message : String) (step : Nat)

/-- A JavaScript `Error` instance: either a plain `Error` carrying its
message, or an instance of one of the pipeline error classes (which are
`Error` subclasses). -/
inductive JsError where
  | plain (message : String)
  | pipe (e : PipeError)
end

/-- A thrown JavaScript value: an `Error` instance, or any other value,
which the executors only ever inspect through `String(v)` (recorded here
as that string). -/
inductive Thrown where
  | err (e : JsError)
  | nonError (stringRepr : String)

mutual
/-- The `message` property of a pipeline error. -/
def PipeError.message : PipeError → String
  | .execution m _ _ => m
  | .validation m _ => m
  | .timeout m _ _ => m
  | .retry m _ _ => m
  | .abort m _ => m

/-- The `message` property of an `Error` instance. -/
def JsError.message : JsError → String
  | .plain m => m
  | .pipe e => e.message
end

/-- The expression `error instanceof Error ? error.message : String(error)`
used when building execution-error messages. -/
def Thrown.messageOrString : Thrown → String
  | .err e => e.message
  | .nonError s => s

/-- The expression `error instanceof Error ? error : undefined` used for the
`originalError` argument of `PipeExecutionError` in both executors. -/
def Thrown.asJsError? : Thrown → Option JsError
  | .err e => some e
  | .nonError _ => none

/-- The expression `error instanceof Error ? error : new Error(String(error))`
used by `withRetry` (for `lastError`) and by `compose` (for the wrapped cause). -/
def Thrown.toJsError : Thrown → JsError
  | .err e => e
  | .nonError s => .plain s

/-- A synchronous pipeline step: a unary function that either returns a value
or throws. -/
def SyncStep (α : Type) : Type := α → Except Thrown α

/-- A step built from a pure function: it never throws. -/
def liftStep {α : Type} (f : α → α) : SyncStep α := fun a => .ok (f a)

/-- A step that always throws the given value. -/
def throwStep {α : Type} (t : Thrown) : SyncStep α := fun _ => .error t

/-- The message of the `PipeExecutionError` built by the catch blocks of
`executeWithErrorHandling` and `executeAsyncWithErrorHandling`:
operationName 실행 중 (step)번째 단계에서 오류 발생: (cause text). -/
def execWrapMsg (operationName : String) (oneBasedStep : Nat) (causeMsg : String) : String :=
  operationName ++ " 실행 중 " ++ toString oneBasedStep ++ "번째 단계에서 오류 발생: " ++ causeMsg

/-- The loop of `executeWithErrorHandling` (pipe.ts lines 408-457).
A `none` element models a `null`/`undefined` entry of the step array: the
source throws `new Error` at it, which the catch wraps like any step throw.
The second component counts how many step functions were invoked (tracing is
console output only and does not affect results, so it is not modelled).
The catch wraps any throw into a `PipeExecutionError` carrying the 1-based
index `currentStep + 1` and `error instanceof Error ? error : undefined`. -/
def runSyncLoop {α : Type} (operationName : String) :
    List (Option (SyncStep α)) → Nat → α → Nat → Except PipeError α × Nat
  | [], _, result, invoked => (.ok result, invoked)
  | none :: _, i, _, invoked =>
      let inner := toString i ++ "번째 함수가 정의되지 않았습니다."
      (.error (.execution (execWrapMsg operationName (i + 1) inner) (i + 1)
        (some (.plain inner))), invoked)
  | some fn :: rest, i, result, invoked =>
      match fn result with
      | .ok next => runSyncLoop operationName rest (i + 1) next (invoked + 1)
      | .error t =>
          (.error (.execution (execWrapMsg operationName (i + 1) t.messageOrString) (i + 1)
            t.asJsError?), invoked + 1)

/-- `executeWithErrorHandling(fns, value, options)` of pipe.ts, with the
default options (no tracing, operation name as given). Returns the result
together with the number of step invocations. -/
def executeWithErrorHandling {α : Type} (fns : List (Option (SyncStep α))) (value : α)
    (operationName : String) : Except PipeError α × Nat :=
  runSyncLoop operationName fns 0 value 0

/-- `pipe(...fns)` of pipe.ts applied to a value.  `validateFunctions` is a
no-op outside development builds and is therefore not modelled.  An empty
step list returns the identity closure directly; otherwise the call
delegates to `executeWithErrorHandling` with operation name "Pipe". -/
def syncPipe {α : Type} (fns : List (Option (SyncStep α))) : α → Except PipeError α :=
  if fns.isEmpty then fun value => .ok value
  else fun value => (executeWithErrorHandling fns value "Pipe").1

/-- The message of the `PipeExecutionError` built by `compose`:
Compose 실행 중 (k)번째 단계에서 오류 발생 (no cause text is appended). -/
def composeWrapMsg (oneBasedStep : Nat) : String :=
  "Compose 실행 중 " ++ toString oneBasedStep ++ "번째 단계에서 오류 발생"

/-- The loop of `compose` (pipe.ts lines 863-885), traversing the step array
from its last element to its first; the argument list here is already the
right-to-left walk (`fns.reverse`), and `currentStep` counts the steps
applied so far (`fns.length - 1 - i` in the source).  `fns[i]!` applied to a
missing element throws a TypeError, which the catch wraps like a step throw.
The catch builds `PipeExecutionError` with the message showing
`currentStep + 1` but the step field set to `currentStep` itself, and the
cause `error instanceof Error ? error : new Error(String(error))`. -/
def composeLoop {α : Type} : List (Option (SyncStep α)) → Nat → α → Except PipeError α
  | [], _, result => .ok result
  | none :: _, currentStep, _ =>
      .error (.execution (composeWrapMsg (currentStep + 1)) currentStep
        (some (.plain "fns[i] is not a function")))
  | some fn :: rest, currentStep, result =>
      match fn result with
      | .ok next => composeLoop rest (currentStep + 1) next
      | .error t =>
          .error (.execution (composeWrapMsg (currentStep + 1)) currentStep (some t.toJsError))

/-- `compose(...fns)` of pipe.ts applied to a value: right-to-left
application of the step list. -/
def compose {α : Type} (fns : List (Option (SyncStep α))) : α → Except PipeError α :=
  if fns.isEmpty then fun value => .ok value
  else fun value => composeLoop fns.reverse 0 value

/-- What calling an async step on an input returns: a plain non-thenable
value (the `isPromise(fnResult)` test was false), a promise that settles
after the stated virtual delay in ms with a fulfilment or a rejection, or a
synchronous throw.  The `Nat` argument of `AsyncStep` is the 0-based
invocation count of the step at its pipeline position (always 0 unless
`withRetry` re-invokes it), modelling JavaScript closures whose behaviour
can change between invocations. -/
inductive AsyncFnResult (α : Type) where
  | plain (v : α)
  | promise (delayMs : Nat) (outcome : Except Thrown α)
  | throws (t : Thrown)

/-- An asynchronous pipeline step. -/
def AsyncStep (α : Type) : Type := α → Nat → AsyncFnResult α

/-- An async step built from a pure function: each invocation returns the
value directly (never a promise, never a throw). -/
def asyncLiftStep {α : Type} (f : α → α) : AsyncStep α := fun a _ => .plain (f a)

/-- An async step that throws the given value on every invocation. -/
def asyncThrowStep {α : Type} (t : Thrown) : AsyncStep α := fun _ _ => .throws t

/-- An async step whose invocation at a given input and attempt index throws
what `failures` dictates for them (a step that fails on every attempt, with
per-attempt error values). -/
def asyncFailStep {α : Type} (failures : α → Nat → Thrown) : AsyncStep α :=
  fun a attempt => .throws (failures a attempt)

/-- `executeStep` of `executeAsyncWithErrorHandling`:
`const fnResult = fn(result); return isPromise(fnResult) ? await fnResult : fnResult`.
Yields the awaited virtual time and the settled outcome.  A synchronous
throw inside the async closure is a rejection after 0 ms. -/
def runAsyncStepOnce {α : Type} (fn : AsyncStep α) (input : α) (attempt : Nat) :
    Nat × Except Thrown α :=
  match fn input attempt with
  | .plain v => (0, .ok v)
  | .promise d out => (d, out)
  | .throws t => (0, .error t)

/-- The message of the `PipeRetryError` thrown by `withRetry`:
(attempts)번의 재시도 후에도 실패했습니다. -/
def retryExhaustedMsg (attempts : Nat) : String :=
  toString attempts ++ "번의 재시도 후에도 실패했습니다"

/-- The loop of `withRetry` (pipe.ts lines 498-526): `i` is the current
0-based attempt, the last argument is the fuel `attempts - i` (the number
of loop iterations still allowed).  On failure of the last allowed attempt
(`i === attempts - 1`) it throws `PipeRetryError(attempts, lastError)` where
`lastError = error instanceof Error ? error : new Error(String(error))`;
otherwise it sleeps `delayMs * 2 ^ i` ms and re-invokes the same thunk,
which closes over the same step input.  The fuel-0 case models the source
falling out of the loop with `throw lastError!` (reachable only when
`attempts = 0`, where `lastError` is still `undefined`). -/
def withRetryGo {α : Type} (step : Nat → Nat × Except Thrown α) (attempts delayMs : Nat) :
    Nat → Nat → Nat × Except Thrown α
  | _, 0 => (0, .error (.nonError "undefined"))
  | i, fuel + 1 =>
      let r := step i
      match r.2 with
      | .ok v => (r.1, .ok v)
      | .error e =>
          if i == attempts - 1 then
            (r.1, .error (.err (.pipe (.retry (retryExhaustedMsg attempts) attempts e.toJsError))))
          else
            let backoffDelay := delayMs * 2 ^ i
            let rec2 := withRetryGo step attempts delayMs (i + 1) fuel
            (r.1 + backoffDelay + rec2.1, rec2.2)

/-- `withRetry(fn, attempts, delayMs)` of pipe.ts. -/
def withRetry {α : Type} (step : Nat → Nat × Except Thrown α) (attempts delayMs : Nat) :
    Nat × Except Thrown α :=
  withRetryGo step attempts delayMs 0 attempts

/-- `AsyncExecutionOptions` of pipe.ts, with the source's defaults made
explicit by `defaultAsyncOptions`.  `abortedBeforeStep i` is the state of
`abortSignal?.aborted` when the check before step `i` runs (`fun _ => false`
models an absent signal). -/
structure AsyncExecutionOptions where
  timeoutMs : Option Nat
  retryAttempts : Nat
  retryDelayMs : Nat
  abortedBeforeStep : Nat → Bool

/-- The defaults destructured at the top of `executeAsyncWithErrorHandling`:
no timeout, `retryAttempts = 1`, `retryDelayMs = 1000`, no abort signal. -/
def defaultAsyncOptions : AsyncExecutionOptions :=
  AsyncExecutionOptions.mk none 1 1000 (fun _ => false)

/-- Truthiness of the destructured `timeoutMs` in `if (timeoutMs && ...)`:
absent or 0 is falsy. -/
def timeoutTruthy : Option Nat → Bool
  | none => false
  | some t => t != 0

/-- `isPromise(stepResult)` where `stepResult = await executeStep()` (or the
awaited `withRetry` result).  In JavaScript an awaited value is never a
thenable — promise resolution unwraps thenables recursively, and the
non-promise branch of `executeStep` is itself guarded by `!isPromise(fnResult)`
— so this test is false for every value `stepResult` can hold. -/
def isPromiseOfAwaited {α : Type} (_ : α) : Bool := false

/-- `withTimeout` of pipe.ts (lines 474-493) applied to an already-settled
promise, the only way `executeAsyncWithErrorHandling` can reach it: the
`promise.then(resolve)` microtask runs before any `setTimeout` macrotask, so
the settled value wins the race immediately and the timer is cleared. -/
def withTimeoutSettled {α : Type} (settled : α) (_timeoutMs _step : Nat) : Nat × Except Thrown α :=
  (0, .ok settled)

/-- The catch block of `executeAsyncWithErrorHandling` (pipe.ts lines
608-624): `PipeTimeoutError`, `PipeRetryError` and `PipeAbortError`
propagate unchanged; every other thrown value — `PipeValidationError` and
`PipeExecutionError` included — is wrapped into a new `PipeExecutionError`
at the 1-based index `currentStep + 1`, with the cause
`error instanceof Error ? error : undefined`. -/
def wrapAsyncCatch (operationName : String) (currentStep : Nat) (t : Thrown) : PipeError :=
  match t with
  | .err (.pipe (.timeout m ms st)) => .timeout m ms st
  | .err (.pipe (.retry m a le)) => .retry m a le
  | .err (.pipe (.abort m st)) => .abort m st
  | _ => .execution (execWrapMsg operationName (currentStep + 1) t.messageOrString)
      (currentStep + 1) t.asJsError?

/-- The message of the `PipeAbortError` thrown when the abort signal is
already set before step `i` runs: (i+1)번째 단계에서 작업이 취소되었습니다. -/
def abortMsg (oneBasedStep : Nat) : String :=
  toString oneBasedStep ++ "번째 단계에서 작업이 취소되었습니다"

/-- The loop of `executeAsyncWithErrorHandling` (pipe.ts lines 542-625) over
the remaining steps, with the current index, current value and elapsed
virtual time.  Per iteration: the abort check (the thrown `PipeAbortError`
passes through the catch unchanged); the `!fn` check (its `Error` gets
wrapped by the catch); one step execution, wrapped in `withRetry` when
`retryAttempts > 1`; then `if (timeoutMs && isPromise(stepResult))` — but
`stepResult` is already awaited, so `withTimeout` is reachable only through
the always-false `isPromiseOfAwaited` test; a rejection is dispatched by
`wrapAsyncCatch` with `currentStep = i`. -/
def runAsyncLoop {α : Type} (operationName : String) (opts : AsyncExecutionOptions) :
    List (Option (AsyncStep α)) → Nat → α → Nat → Nat × Except PipeError α
  | [], _, result, elapsed => (elapsed, .ok result)
  | step :: rest, i, result, elapsed =>
      if opts.abortedBeforeStep i then
        (elapsed, .error (.abort (abortMsg (i + 1)) (i + 1)))
      else
        match step with
        | none =>
            let inner := toString i ++ "번째 함수가 정의되지 않았습니다"
            (elapsed, .error (.execution (execWrapMsg operationName (i + 1) inner) (i + 1)
              (some (.plain inner))))
        | some fn =>
            let stepOnce := runAsyncStepOnce fn result
            let attempted :=
              if opts.retryAttempts > 1 then
                withRetry stepOnce opts.retryAttempts opts.retryDelayMs
              else stepOnce 0
            match attempted.2 with
            | .error thrownVal =>
                (elapsed + attempted.1, .error (wrapAsyncCatch operationName i thrownVal))
            | .ok stepResult =>
                let timed :=
                  if timeoutTruthy opts.timeoutMs && isPromiseOfAwaited stepResult then
                    withTimeoutSettled stepResult (opts.timeoutMs.getD 0) i
                  else (0, .ok stepResult)
                match timed.2 with
                | .error thrownVal2 =>
                    (elapsed + attempted.1 + timed.1,
                      .error (wrapAsyncCatch operationName i thrownVal2))
                | .ok nextResult =>
                    runAsyncLoop operationName opts rest (i + 1) nextResult
                      (elapsed + attempted.1 + timed.1)

/-- `executeAsyncWithErrorHandling(fns, value, options)` of pipe.ts: total
awaited virtual time and the settled outcome of the returned promise. -/
def executeAsyncWithErrorHandling {α : Type} (fns : List (Option (AsyncStep α))) (value : α)
    (operationName : String) (opts : AsyncExecutionOptions) : Nat × Except PipeError α :=
  runAsyncLoop operationName opts fns 0 value 0

/-- `pipeAsync(...fns)` of pipe.ts applied to a value: default options,
operation name "PipeAsync"; an empty step list resolves to the input. -/
def pipeAsync {α : Type} (fns : List (Option (AsyncStep α))) : α → Nat × Except PipeError α :=
  if fns.isEmpty then fun value => (0, .ok value)
  else fun value => executeAsyncWithErrorHandling fns value "PipeAsync" defaultAsyncOptions

/-- `pipeAsyncWithOptions(options, ...fns)` of pipe.ts applied to a value. -/
def pipeAsyncWithOptions {α : Type} (opts : AsyncExecutionOptions)
    (fns : List (Option (AsyncStep α))) : α → Nat × Except PipeError α :=
  if fns.isEmpty then fun value => (0, .ok value)
  else fun value => executeAsyncWithErrorHandling fns value "PipeAsync" opts

/-- Whether `pattern` is an initial segment of `l`. -/
def listStartsWith : List Char → List Char → Bool
  | _, [] => true
  | [], _ :: _ => false
  | c :: cs, d :: ds => c == d && listStartsWith cs ds

/-- Whether `pattern` occurs as a contiguous segment of `l`. -/
def listIncludes : List Char → List Char → Bool
  | l, pattern =>
    match l with
    | [] => pattern.isEmpty
    | _ :: rest => listStartsWith l pattern || listIncludes rest pattern

/-- `s.includes(sub)` on JavaScript strings: `sub` occurs contiguously in `s`. -/
def strIncludes (s sub : String) : Bool := listIncludes s.data sub.data

/-- The `error` value handed to a retry strategy or error classifier
(`unknown` in the source).  The constructors record exactly the distinctions
the source code makes: falsy values (`undefined`, `null`, ...), `Error`
instances (truthy objects, with their `message` and an optional `code`
property), truthy non-`Error` objects with or without a `code` property, and
truthy non-object primitives (observed only for truthiness). -/
inductive ErrVal where
  | falsy
  | errorObj (message : String) (code : Option String)
  | codeObj (code : String)
  | objNoCode
  | primTruthy (stringRepr : String)
deriving DecidableEq

/-- JavaScript truthiness of an `ErrVal`. -/
def ErrVal.truthy : ErrVal → Bool
  | .falsy => false
  | _ => true

/-- The `code` property of the value, when it is an object carrying one. -/
def ErrVal.code? : ErrVal → Option String
  | .errorObj _ c => c
  | .codeObj c => some c
  | _ => none

/-- `ExponentialBackoffRetryStrategy(maxRetries, baseDelay, backoffFactor,
jitter)` of the retry-strategy module (defaults 3, 200, 2, 0.2). -/
structure ExponentialBackoffRetryStrategy where
  maxRetries : Nat
  baseDelay : ℚ
  backoffFactor : ℚ
  jitter : ℚ

/-- `ExponentialBackoffRetryStrategy.shouldRetry(attempt)`:
`attempt <= this.maxRetries`, independent of the (ignored) error argument. -/
def ExponentialBackoffRetryStrategy.shouldRetry
    (s : ExponentialBackoffRetryStrategy) (attempt : Nat) : Bool :=
  decide (attempt ≤ s.maxRetries)

/-- `ExponentialBackoffRetryStrategy.getDelay(attempt)` with the
`Math.random()` sample made an explicit argument `rand` in `[0, 1]`:
`max(0, baseDelay * factor^(attempt-1) + (rand * jitterAmount * 2 - jitterAmount))`. -/
def ExponentialBackoffRetryStrategy.getDelay
    (s : ExponentialBackoffRetryStrategy) (attempt : Nat) (rand : ℚ) : ℚ :=
  let baseDelay := s.baseDelay * s.backoffFactor ^ (attempt - 1)
  let jitterAmount := baseDelay * s.jitter
  max 0 (baseDelay + (rand * jitterAmount * 2 - jitterAmount))

/-- `AuthRetryStrategy` of the retry-strategy module: extends
`ExponentialBackoffRetryStrategy` with no new fields, overriding
`shouldRetry` only. -/
structure AuthRetryStrategy extends ExponentialBackoffRetryStrategy

/-- `AuthRetryStrategy.isNetworkError(error)`: true when the error is an
`Error` instance whose message includes one of "fetch", "network",
"timeout", "Failed to fetch". -/
def AuthRetryStrategy.isNetworkError : ErrVal → Bool
  | .errorObj msg _ =>
      strIncludes msg "fetch" || strIncludes msg "network" || strIncludes msg "timeout" ||
        strIncludes msg "Failed to fetch"
  | _ => false

/-- The non-retryable credential/authorization failure codes recognised by
`AuthRetryStrategy.isAuthError`. -/
def authErrorCodes : List String :=
  ["INVALID_CREDENTIALS", "USER_NOT_FOUND", "EMAIL_NOT_CONFIRMED", "INVALID_PASSWORD"]

/-- `AuthRetryStrategy.isAuthError(error)`: the value is a (truthy) object
with a `code` property whose value is one of `authErrorCodes`. -/
def AuthRetryStrategy.isAuthError (e : ErrVal) : Bool :=
  match e.code? with
  | some c => authErrorCodes.contains c
  | none => false

/-- `AuthRetryStrategy.shouldRetry(attempt, error)`: a tagged auth error is
never retried; a truthy error that does not look like a network error is
never retried; otherwise the base decision `attempt <= maxRetries`. -/
def AuthRetryStrategy.shouldRetry (s : AuthRetryStrategy) (attempt : Nat) (error : ErrVal) :
    Bool :=
  if error.truthy && AuthRetryStrategy.isAuthError error then false
  else if error.truthy && !(AuthRetryStrategy.isNetworkError error) then false
  else ExponentialBackoffRetryStrategy.shouldRetry s.toExponentialBackoffRetryStrategy attempt

/-- The loading-state enum of `use-auth.ts`. -/
inductive LoadingState where
  | idle
  | initializing
  | signingIn
  | signingOut
  | refreshingProfile
  | refreshingSession
deriving DecidableEq

/-- The `AuthErrorType` enum of `use-auth.ts`. -/
inductive AuthErrorType where
  | networkError
  | authError
  | profileError
  | sessionError
  | timeoutError
  | unknownError
deriving DecidableEq

/-- The `AuthError` record built by `createAuthError` in `use-auth.ts`
(`originalError` keeps the triggering value; `ErrVal.falsy` stands for an
absent/undefined original error). -/
structure AuthError where
  type : AuthErrorType
  message : String
  originalError : ErrVal
  retryable : Bool
deriving DecidableEq

/-- The `AuthState` record of `use-auth.ts`: current profile (modelled by an
opaque label), loading state, optional structured error. -/
structure AuthState where
  user : Option String
  loadingState : LoadingState
  error : Option AuthError
deriving DecidableEq

/-- `isNetworkError` of `use-auth.ts` (built with `pipe` from two pure
steps, hence their composition): `error instanceof Error ? error.message : ''`,
then `includes('fetch') || includes('network') || includes('timeout')`. -/
def hookIsNetworkError (e : ErrVal) : Bool :=
  let message := match e with
    | .errorObj m _ => m
    | _ => ""
  strIncludes message "fetch" || strIncludes message "network" || strIncludes message "timeout"

/-- `processAuthError` of `use-auth.ts` (a `pipe` of a classifying step and a
`pipeIf`): network-looking errors become a retryable NETWORK_ERROR, anything
else a non-retryable PROFILE_ERROR; both keep the original error. -/
def processAuthError (error : ErrVal) : AuthError :=
  if hookIsNetworkError error then
    AuthError.mk .networkError "네트워크 연결을 확인해주세요." error true
  else
    AuthError.mk .profileError "사용자 프로필을 불러올 수 없습니다." error false

/-- One call of `executeProfileQuery`: the promise either fulfils with the
profile row (`none` models a null row) or rejects. -/
inductive QueryOutcome where
  | ok (data : Option String)
  | throws (e : ErrVal)

/-- The retry loop of `fetchUserProfile` (use-auth.ts lines 121-153).
`query attempt` is the outcome of the `executeProfileQuery` call made on
that (1-based) attempt.  Returns the profile result together with the error
the function wrote into state via `setAuthState` (`none` when it returned
without writing).  The fuel argument is `maxRetries + 1 - (attempt - 1)`
iterations at most; since the while condition requires
`attempt <= maxRetries`, the fuel-0 branch is unreachable and mirrors the
post-loop path. -/
def fetchUserProfileGo (s : AuthRetryStrategy) (query : Nat → QueryOutcome) :
    Nat → ErrVal → Nat → Option String × Option AuthError
  | _, lastError, 0 => (none, some (processAuthError lastError))
  | attempt, lastError, fuel + 1 =>
      if AuthRetryStrategy.shouldRetry s attempt lastError then
        match query attempt with
        | .ok data => (data, none)
        | .throws e =>
            if AuthRetryStrategy.shouldRetry s (attempt + 1) e then
              fetchUserProfileGo s query (attempt + 1) e fuel
            else
              (none, some (processAuthError e))
      else
        (none, some (processAuthError lastError))

/-- `fetchUserProfile(userId)` of `use-auth.ts`: attempts start at 1 with
`lastError` undefined. -/
def fetchUserProfile (s : AuthRetryStrategy) (query : Nat → QueryOutcome) :
    Option String × Option AuthError :=
  fetchUserProfileGo s query 1 .falsy (s.maxRetries + 1)

/-- The profile-oriented strategy instance of the hook:
`new AuthRetryStrategy(3, 1000, 2, 0.2)`. -/
def profileRetryStrategy : AuthRetryStrategy :=
  AuthRetryStrategy.mk (ExponentialBackoffRetryStrategy.mk 3 1000 2 (1 / 5))

/-- The `TOKEN_REFRESHED` branch of `handleAuthChange` (use-auth.ts lines
233-246).  With no session user the state is untouched.  Otherwise
`setupSessionRefresh` re-arms the renewal timer (no immediate state write),
then `fetchUserProfile` runs — applying its own state write on exhausted
retries — and only a non-null profile triggers the success write
`{...prev, user: profile, loadingState: IDLE, error: null}`. -/
def handleTokenRefreshed (s : AuthRetryStrategy) (st : AuthState)
    (sessionUser : Option String) (query : Nat → QueryOutcome) : AuthState :=
  match sessionUser with
  | none => st
  | some _ =>
      let fetched := fetchUserProfile s query
      let afterFetch : AuthState :=
        match fetched.2 with
        | some e => AuthState.mk st.user st.loadingState (some e)
        | none => st
      match fetched.1 with
      | some profile => AuthState.mk (some profile) .idle none
      | none => afterFetch

/-- The universe of JavaScript values passed as memoized-function arguments:
numbers, strings, booleans, `null`, `undefined`, and (nested) arrays.
Plain non-array objects (the `JSON.stringify` branch of `createMemoKey`)
are outside this modelled universe; none of the verified properties
involves them. -/
inductive MemoVal where
  | num (n : Int)
  | str (s : String)
  | boolV (b : Bool)
  | nullV
  | undefV
  | arr (elems : List MemoVal)

mutual
/-- `String(v)` for a modelled value: numbers and booleans print as in
JavaScript, `String(null) = "null"`, `String(undefined) = "undefined"`,
and an array joins its elements with commas (with `null`/`undefined`
elements rendered as empty strings, per `Array.prototype.join`). -/
def jsString : MemoVal → String
  | .num n => toString n
  | .str s => s
  | .boolV b => cond b "true" "false"
  | .nullV => "null"
  | .undefV => "undefined"
  | .arr es => jsJoin es

/-- Comma-join of array elements for `String(array)`. -/
def jsJoin : List MemoVal → String
  | [] => ""
  | v :: rest =>
      let head := match v with
        | .nullV => ""
        | .undefV => ""
        | w => jsString w
      match rest with
      | [] => head
      | _ => head ++ "," ++ jsJoin rest
end

/-- The array branch of `createMemoKey`'s per-argument mapping: length 0
gives "[]", length 1 gives "[String(a0)]", longer arrays give only the
length and the boundary elements "[len:String(a0)...String(alast)]". -/
def memoKeyArray : List MemoVal → String
  | [] => "[]"
  | [e] => "[" ++ jsString e ++ "]"
  | e :: rest =>
      "[" ++ toString (rest.length + 1) ++ ":" ++ jsString e ++ "..." ++
        jsString (List.getLastD rest e) ++ "]"

/-- The per-argument mapping of `createMemoKey`'s general path:
`null`/`undefined` print literally, non-objects via `String(arg)`, arrays
via the boundary form. -/
def memoKeyPart (v : MemoVal) : String :=
  match v with
  | .nullV => "null"
  | .undefV => "undefined"
  | .arr es => memoKeyArray es
  | other => jsString other

/-- `createMemoKey(args)` of pipe.ts (lines 1154-1187): "empty" for no
arguments; a single `null`/`undefined`/non-object argument maps directly;
everything else joins the per-argument parts with "|". -/
def createMemoKey (args : List MemoVal) : String :=
  match args with
  | [] => "empty"
  | [arg] =>
      match arg with
      | .nullV => "null"
      | .undefV => "undefined"
      | .arr es => memoKeyArray es
      | other => jsString other
  | _ => String.intercalate "|" (args.map memoKeyPart)

/-- The mutable state captured by a `memoize(fn)` closure: the key-indexed
cache and the development-mode hit/miss counters. -/
structure MemoState (U : Type) where
  cache : List (String × U)
  hitCount : Nat
  missCount : Nat

/-- A fresh memoized closure: empty cache, zero counters. -/
def memoEmpty (U : Type) : MemoState U := MemoState.mk [] 0 0

/-- `cache.get(key)` over the modelled cache. -/
def memoLookup {U : Type} (cache : List (String × U)) (key : String) : Option U :=
  match cache.find? (fun p => p.1 == key) with
  | some p => some p.2
  | none => none

/-- One invocation of the closure returned by `memoize(fn)` (pipe.ts lines
1209-1237): derive the key, return the cached value on a hit, otherwise
evaluate `fn` and cache the result under the key. -/
def memoizedCall {U : Type} (f : List MemoVal → U) (st : MemoState U) (args : List MemoVal) :
    U × MemoState U :=
  let key := createMemoKey args
  match memoLookup st.cache key with
  | some cached => (cached, MemoState.mk st.cache (st.hitCount + 1) st.missCount)
  | none =>
      let result := f args
      (result, MemoState.mk ((key, result) :: st.cache) st.hitCount (st.missCount + 1))

/-- The auth-state and query fixtures used by the concrete counterexample and
witness runs: a signed-in user with no pending error, and a profile query
whose every attempt rejects with a network-looking `Error`. -/
def tokenRefreshedPriorState : AuthState := AuthState.mk (some "alice") .idle none

/-- A profile query that rejects on every attempt with `Failed to fetch`. -/
def alwaysNetworkFail : Nat → QueryOutcome :=
  fun _ => .throws (.errorObj "Failed to fetch" none)

/-- Sum of the numeric elements of a list of values. -/
def sumNums : List MemoVal → Int
  | [] => 0
  | .num n :: rest => n + sumNums rest
  | _ :: rest => sumNums rest

/-- A concrete function to memoize: the sum of a single array argument's
numeric elements (so distinct arrays can have distinct results). -/
def sumFirstArray : List MemoVal → Int
  | [.arr es] => sumNums es
  | _ => 0

/-- Single-array argument lists whose memo keys collide: equal length, equal
first and last elements, different middle. -/
def cexArgsA : List MemoVal := [MemoVal.arr [MemoVal.num 1, MemoVal.num 2, MemoVal.num 3]]

/-- See `cexArgsA`. -/
def cexArgsB : List MemoVal := [MemoVal.arr [MemoVal.num 1, MemoVal.num 9, MemoVal.num 3]]

theorem runSyncLoop_liftSegment {α : Type} (op : String) (gs : List (α → α))
    (l : List (Option (SyncStep α))) (i : Nat) (x : α) (c : Nat) :
    runSyncLoop op (gs.map (fun f => some (liftStep f)) ++ l) i x c
      = runSyncLoop op l (i + gs.length) (gs.foldl (fun acc f => f acc) x) (c + gs.length) := by
  induction gs generalizing i x c with
  | nil => simp
  | cons f fs ih =>
      simp only [List.map_cons, List.cons_append, runSyncLoop, liftStep, List.foldl_cons,
        List.length_cons, List.append_eq]
      rw [ih]
      have h1 : i + 1 + fs.length = i + (fs.length + 1) := by omega
      have h2 : c + 1 + fs.length = c + (fs.length + 1) := by omega
      rw [h1, h2]

theorem composeLoop_liftSegment {α : Type} (gs : List (α → α))
    (l : List (Option (SyncStep α))) (k : Nat) (x : α) :
    composeLoop (gs.map (fun f => some (liftStep f)) ++ l) k x
      = composeLoop l (k + gs.length) (gs.foldl (fun acc f => f acc) x) := by
  induction gs generalizing k x with
  | nil => simp
  | cons f fs ih =>
      simp only [List.map_cons, List.cons_append, composeLoop, liftStep, List.foldl_cons,
        List.length_cons, List.append_eq]
      rw [ih]
      have h1 : k + 1 + fs.length = k + (fs.length + 1) := by omega
      rw [h1]

/-- C6: for every non-empty list of (non-throwing) step functions and every
input, the synchronous pipeline returns the left-to-right fold of the steps
over the input. -/
theorem pipe_matches_left_fold {α : Type} (fns : List (α → α)) (x : α) (h : fns ≠ []) :
    syncPipe (fns.map (fun f => some (liftStep f))) x
      = .ok (fns.foldl (fun acc f => f acc) x) := by
  have hne : (fns.map (fun f => some (liftStep f))).isEmpty = false := by
    cases fns with
    | nil => exact absurd rfl h
    | cons f fs => rfl
  have key : runSyncLoop "Pipe" (fns.map (fun f => some (liftStep f))) 0 x 0
      = (.ok (fns.foldl (fun acc f => f acc) x), fns.length) := by
    rw [← List.append_nil (fns.map (fun f => some (liftStep f))), runSyncLoop_liftSegment]
    simp [runSyncLoop]
  simp [syncPipe, hne, executeWithErrorHandling, key]

/-- C6 witness: `pipe(x => x + 1, x => x * 2)(3) = 8`, matching the fold. -/
theorem pipe_matches_left_fold_witness :
    ([fun x : Int => x + 1, fun x => x * 2] : List (Int → Int)) ≠ []
      ∧ syncPipe (([fun x : Int => x + 1, fun x => x * 2] : List (Int → Int)).map
          (fun f => some (liftStep f))) 3
        = .ok (([fun x : Int => x + 1, fun x => x * 2] : List (Int → Int)).foldl
            (fun acc f => f acc) 3) :=
  ⟨by simp, pipe_matches_left_fold [fun x : Int => x + 1, fun x => x * 2] 3 (by simp)⟩

/-- C7: if the k-th step (1-based) of a synchronous pipeline is the first to
throw, the run produces an `ExecutionError` whose step index is exactly k,
no value is returned, and exactly k step functions were invoked (so no step
after the k-th executes). -/
theorem pipe_halts_on_first_throw {α : Type} (gs : List (α → α)) (t : Thrown)
    (rest : List (Option (SyncStep α))) (x : α) :
    syncPipe (gs.map (fun f => some (liftStep f)) ++ some (throwStep t) :: rest) x
        = .error (.execution
            (execWrapMsg "Pipe" (gs.length + 1) t.messageOrString)
            (gs.length + 1) t.asJsError?)
      ∧ (executeWithErrorHandling
            (gs.map (fun f => some (liftStep f)) ++ some (throwStep t) :: rest) x "Pipe").2
        = gs.length + 1 := by
  have hne : (gs.map (fun f => some (liftStep f)) ++ some (throwStep t) :: rest).isEmpty
      = false := by
    cases gs <;> rfl
  have key : runSyncLoop "Pipe"
        (gs.map (fun f => some (liftStep f)) ++ some (throwStep t) :: rest) 0 x 0
      = (.error (.execution (execWrapMsg "Pipe" (gs.length + 1) t.messageOrString)
          (gs.length + 1) t.asJsError?), gs.length + 1) := by
    rw [runSyncLoop_liftSegment]
    simp [runSyncLoop, throwStep]
  refine ⟨?_, ?_⟩
  · simp [syncPipe, hne, executeWithErrorHandling, key]
  · simp [executeWithErrorHandling, key]

/-- C4 counterexample: with the same two-step scenario — one pure step
applied, then a throwing step — `compose` records step field 1 while the
synchronous `pipe` records step field 2 for the second applied step, so the
two do not share a 1-based step-index contract. -/
theorem compose_index_counterexample :
    compose [some (throwStep (.err (.plain "boom"))), some (liftStep (fun x : Int => x + 1))] 0
        = .error (.execution (composeWrapMsg 2) 1 (some (.plain "boom")))
      ∧ syncPipe [some (liftStep (fun x : Int => x + 1)),
            some (throwStep (.err (.plain "boom")))] 0
        = .error (.execution (execWrapMsg "Pipe" 2 "boom") 2 (some (.plain "boom")))
      ∧ compose [some (throwStep (.err (.plain "boom"))),
            some (liftStep (fun x : Int => x + 1))] 0
        ≠ .error (.execution (composeWrapMsg 2) 2 (some (.plain "boom"))) :=
  ⟨rfl, rfl, by intro h; simp [compose, composeLoop, liftStep, throwStep, Thrown.toJsError] at h⟩

/-- C4 amended: when the (k+1)-th step of compose's right-to-left walk
throws after k steps have been applied, compose wraps the throw in an
`ExecutionError` whose message displays k+1 but whose step field records k
itself (0-based, unlike the synchronous pipe's 1-based field), with the
thrown value preserved as the cause, wrapped into an `Error` when it is not
one. -/
theorem compose_reports_applied_count {α : Type} (applied : List (α → α)) (t : Thrown)
    (rest : List (Option (SyncStep α))) (x : α) :
    compose (rest ++ some (throwStep t) :: (applied.map (fun f => some (liftStep f))).reverse) x
      = .error (.execution (composeWrapMsg (applied.length + 1)) applied.length
          (some t.toJsError)) := by
  have hne : (rest ++ some (throwStep t) ::
      (applied.map (fun f => some (liftStep f))).reverse).isEmpty = false := by
    cases rest <;> rfl
  have key : composeLoop
        (applied.map (fun f => some (liftStep f)) ++ some (throwStep t) :: rest.reverse) 0 x
      = .error (.execution (composeWrapMsg (applied.length + 1)) applied.length
          (some t.toJsError)) := by
    rw [composeLoop_liftSegment]
    simp [composeLoop, throwStep]
  simp [compose, hne, key]

/-- C5 counterexample: a step that throws the bare string "boom" produces,
in both the synchronous and the asynchronous executor, an `ExecutionError`
whose cause field is absent (`none`): the thrown value survives only inside
the message text, so it is not carried as a preserved cause. -/
theorem pipeline_nonError_cause_dropped :
    syncPipe [some (throwStep (.nonError "boom"))] (0 : Int)
        = .error (.execution (execWrapMsg "Pipe" 1 "boom") 1 none)
      ∧ (pipeAsync [some (fun _ _ => AsyncFnResult.throws (.nonError "boom"))] (0 : Int)).2
        = .error (.execution (execWrapMsg "PipeAsync" 1 "boom") 1 none) :=
  ⟨rfl, rfl⟩

/-- C5 amended: a thrown `Error` instance is preserved as the pipeline
error's cause; a thrown non-`Error` value is preserved only as `String(v)`
inside the message, with no cause recorded, in both executors — while
`compose` instead wraps the non-`Error` into a fresh `Error` cause. -/
theorem pipeline_cause_preservation {α : Type} (m : String) (x : α) :
    syncPipe [some (throwStep (.err (.plain m)))] x
        = .error (.execution (execWrapMsg "Pipe" 1 m) 1 (some (.plain m)))
      ∧ syncPipe [some (throwStep (.nonError m))] x
        = .error (.execution (execWrapMsg "Pipe" 1 m) 1 none)
      ∧ (pipeAsync [some (fun _ _ => AsyncFnResult.throws (.err (.plain m)))] x).2
        = .error (.execution (execWrapMsg "PipeAsync" 1 m) 1 (some (.plain m)))
      ∧ (pipeAsync [some (fun _ _ => AsyncFnResult.throws (.nonError m))] x).2
        = .error (.execution (execWrapMsg "PipeAsync" 1 m) 1 none)
      ∧ compose [some (throwStep (.nonError m))] x
        = .error (.execution (composeWrapMsg 1) 0 (some (.plain m))) :=
  ⟨rfl, rfl, rfl, rfl, rfl⟩

theorem withRetry_first_ok {α : Type} (step : Nat → Nat × Except Thrown α)
    (attempts delayMs t : Nat) (v : α) (h : step 0 = (t, .ok v)) (ha : 0 < attempts) :
    withRetry step attempts delayMs = (t, .ok v) := by
  unfold withRetry
  cases attempts with
  | zero => omega
  | succ n => simp [withRetryGo, h]

theorem runAsyncLoop_liftSegment {α : Type} (op : String) (opts : AsyncExecutionOptions)
    (hab : ∀ n, opts.abortedBeforeStep n = false) (gs : List (α → α))
    (l : List (Option (AsyncStep α))) (i : Nat) (x : α) (e : Nat) :
    runAsyncLoop op opts (gs.map (fun f => some (asyncLiftStep f)) ++ l) i x e
      = runAsyncLoop op opts l (i + gs.length) (gs.foldl (fun acc f => f acc) x) e := by
  induction gs generalizing i x with
  | nil => simp
  | cons f fs ih =>
      have hstep : runAsyncStepOnce (asyncLiftStep f) x 0 = (0, .ok (f x)) := rfl
      have hatt :
          (if opts.retryAttempts > 1 then
              withRetry (runAsyncStepOnce (asyncLiftStep f) x) opts.retryAttempts
                opts.retryDelayMs
            else runAsyncStepOnce (asyncLiftStep f) x 0) = (0, .ok (f x)) := by
        by_cases hgt : opts.retryAttempts > 1
        · rw [if_pos hgt]
          exact withRetry_first_ok _ _ _ _ _ hstep (by omega)
        · rw [if_neg hgt]
          exact hstep
      simp only [List.map_cons, List.cons_append, runAsyncLoop, hab i, List.append_eq,
        Bool.false_eq_true, if_false, hatt, isPromiseOfAwaited, Bool.and_false,
        List.foldl_cons, List.length_cons, Nat.add_zero]
      rw [ih]
      have h1 : i + 1 + fs.length = i + (fs.length + 1) := by omega
      rw [h1]

/-- C1: the executed code at the spec's failing input.  A single async step
that settles successfully only after 200 virtual ms, run with a configured
per-step timeout of 100 ms, makes the pipeline wait the full 200 ms and
resolve with the step's value — no `TimeoutError` is produced, because
`executeAsyncWithErrorHandling` awaits `executeStep()` before the
`isPromise(stepResult)` guard, so `withTimeout` is never applied to a
pending step. -/
theorem async_timeout_never_fires :
    executeAsyncWithErrorHandling
        [some (fun _ _ => AsyncFnResult.promise 200 (.ok (1 : Int)))] 0 "PipeAsync"
        (AsyncExecutionOptions.mk (some 100) 1 1000 (fun _ => false))
      = (200, .ok 1) := rfl

/-- C2 counterexample: an async step throwing a `PipeValidationError` does
not propagate unchanged — the outer catch re-wraps it into a
`PipeExecutionError` (whose cause holds the validation error), since the
rethrow list covers only timeout, retry-exhaustion, and abort errors. -/
theorem async_validation_rewrapped :
    (pipeAsync [some (fun _ _ =>
          AsyncFnResult.throws (.err (.pipe (.validation "검증 실패" 0))))] (0 : Int)).2
        = .error (.execution (execWrapMsg "PipeAsync" 1 "검증 실패") 1
            (some (.pipe (.validation "검증 실패" 0))))
      ∧ (.execution (execWrapMsg "PipeAsync" 1 "검증 실패") 1
            (some (.pipe (.validation "검증 실패" 0))) : PipeError)
          ≠ .validation "검증 실패" 0 :=
  ⟨rfl, fun h => PipeError.noConfusion h⟩

/-- C2 amended: in an async run, a step throwing a `TimeoutError`,
`RetryExhaustedError` or `AbortError` propagates it unchanged; any other
thrown value — a `ValidationError` included — is wrapped into an
`ExecutionError` carrying the current 1-based step index (and the thrown
`Error` as cause when it is one). -/
theorem async_rethrow_contract {α : Type} (gs : List (α → α))
    (rest : List (Option (AsyncStep α))) (x : α) (m : String) (ms a st : Nat) (le : JsError) :
    (executeAsyncWithErrorHandling (gs.map (fun f => some (asyncLiftStep f)) ++
          some (asyncThrowStep (.err (.pipe (.timeout m ms st)))) :: rest)
          x "PipeAsync" defaultAsyncOptions).2
        = .error (.timeout m ms st)
      ∧ (executeAsyncWithErrorHandling (gs.map (fun f => some (asyncLiftStep f)) ++
          some (asyncThrowStep (.err (.pipe (.retry m a le)))) :: rest)
          x "PipeAsync" defaultAsyncOptions).2
        = .error (.retry m a le)
      ∧ (executeAsyncWithErrorHandling (gs.map (fun f => some (asyncLiftStep f)) ++
          some (asyncThrowStep (.err (.pipe (.abort m st)))) :: rest)
          x "PipeAsync" defaultAsyncOptions).2
        = .error (.abort m st)
      ∧ (executeAsyncWithErrorHandling (gs.map (fun f => some (asyncLiftStep f)) ++
          some (asyncThrowStep (.err (.pipe (.validation m st)))) :: rest)
          x "PipeAsync" defaultAsyncOptions).2
        = .error (.execution (execWrapMsg "PipeAsync" (gs.length + 1)
            (PipeError.message (.validation m st))) (gs.length + 1)
            (some (.pipe (.validation m st))))
      ∧ (executeAsyncWithErrorHandling (gs.map (fun f => some (asyncLiftStep f)) ++
          some (asyncThrowStep (.err (.plain m))) :: rest)
          x "PipeAsync" defaultAsyncOptions).2
        = .error (.execution (execWrapMsg "PipeAsync" (gs.length + 1) m) (gs.length + 1)
            (some (.plain m))) := by
  have hab : ∀ n, defaultAsyncOptions.abortedBeforeStep n = false := fun _ => rfl
  refine ⟨?_, ?_, ?_, ?_, ?_⟩ <;>
    · unfold executeAsyncWithErrorHandling
      rw [runAsyncLoop_liftSegment _ _ hab]
      simp [runAsyncLoop, runAsyncStepOnce, wrapAsyncCatch, defaultAsyncOptions,
        asyncThrowStep, Thrown.messageOrString, Thrown.asJsError?, JsError.message,
        PipeError.message]

/-- C8: with `retryAttempts = 3` and a final step whose every attempt
rejects, the async run resolves to a `RetryExhaustedError` carrying
`attempts = 3` and the last underlying error — the one thrown by the third
invocation of the same step at the same input (the fold of the earlier
steps, each of which ran once) — after waiting the two backoff delays. -/
theorem async_retry_exhausts {α : Type} (gs : List (α → α)) (x : α)
    (failures : α → Nat → Thrown) (delayMs : Nat) (timeoutMs : Option Nat) :
    executeAsyncWithErrorHandling
        (gs.map (fun f => some (asyncLiftStep f)) ++ [some (asyncFailStep failures)])
        x "PipeAsync" (AsyncExecutionOptions.mk timeoutMs 3 delayMs (fun _ => false))
      = (delayMs * 3,
          .error (.retry (retryExhaustedMsg 3) 3
            (Thrown.toJsError (failures (gs.foldl (fun acc f => f acc) x) 2)))) := by
  unfold executeAsyncWithErrorHandling
  rw [runAsyncLoop_liftSegment _ _ (fun _ => rfl)]
  simp only [runAsyncLoop, asyncFailStep, runAsyncStepOnce, withRetry, withRetryGo,
    wrapAsyncCatch]
  norm_num
  omega

/-- C3 counterexample: with a signed-in prior state and a token-refreshed
event whose profile fetch rejects with a network error on every attempt, the
resulting state keeps the prior user but holds a retryable NETWORK_ERROR —
written by `fetchUserProfile` itself — so an error is set in state. -/
theorem tokenRefreshed_failure_sets_error :
    (handleTokenRefreshed profileRetryStrategy tokenRefreshedPriorState (some "alice")
        alwaysNetworkFail).user = some "alice"
      ∧ (handleTokenRefreshed profileRetryStrategy tokenRefreshedPriorState (some "alice")
          alwaysNetworkFail).error
        = some (AuthError.mk .networkError "네트워크 연결을 확인해주세요."
            (.errorObj "Failed to fetch" none) true)
      ∧ (handleTokenRefreshed profileRetryStrategy tokenRefreshedPriorState (some "alice")
          alwaysNetworkFail).error ≠ none :=
  ⟨rfl, rfl, by decide⟩

/-- C3 amended: when the token-refreshed profile fetch fails (returns no
profile), the controller keeps the prior user and loading state unchanged;
the error field, however, receives whatever classified error
`fetchUserProfile` wrote while exhausting its retries (a NETWORK_ERROR or
PROFILE_ERROR), and stays unchanged only when the fetch returned empty data
without ever throwing. -/
theorem tokenRefreshed_keeps_user_frame (st : AuthState) (u : String)
    (query : Nat → QueryOutcome)
    (h : (fetchUserProfile profileRetryStrategy query).1 = none) :
    (handleTokenRefreshed profileRetryStrategy st (some u) query).user = st.user
      ∧ (handleTokenRefreshed profileRetryStrategy st (some u) query).loadingState
        = st.loadingState
      ∧ (handleTokenRefreshed profileRetryStrategy st (some u) query).error
        = (match (fetchUserProfile profileRetryStrategy query).2 with
            | some e => some e
            | none => st.error) := by
  rcases h2 : (fetchUserProfile profileRetryStrategy query).2 with _ | e <;>
    simp [handleTokenRefreshed, h, h2]

/-- C3 witness: the concrete network-failing fetch does fail, and the prior
user survives it. -/
theorem tokenRefreshed_keeps_user_frame_witness :
    (fetchUserProfile profileRetryStrategy alwaysNetworkFail).1 = none
      ∧ (handleTokenRefreshed profileRetryStrategy tokenRefreshedPriorState (some "alice")
          alwaysNetworkFail).user = tokenRefreshedPriorState.user :=
  ⟨rfl,
    (tokenRefreshed_keeps_user_frame tokenRefreshedPriorState "alice" alwaysNetworkFail rfl).1⟩

/-- C9: for every attempt number and strategy configuration, the auth-aware
`shouldRetry` returns false on any error value carrying one of the
credential/authorization failure codes. -/
theorem authRetryStrategy_refuses_auth_codes (s : AuthRetryStrategy) (attempt : Nat)
    (e : ErrVal) (c : String) (hc : e.code? = some c) (hmem : c ∈ authErrorCodes) :
    AuthRetryStrategy.shouldRetry s attempt e = false := by
  have hauth : AuthRetryStrategy.isAuthError e = true := by
    unfold AuthRetryStrategy.isAuthError
    rw [hc]
    simpa using hmem
  have htruthy : e.truthy = true := by
    cases e <;> simp_all [ErrVal.code?, ErrVal.truthy]
  simp [AuthRetryStrategy.shouldRetry, htruthy, hauth]

/-- C9 witness: an INVALID_CREDENTIALS-coded error is refused on attempt 1,
well below the profile strategy's maximum of 3. -/
theorem authRetryStrategy_refuses_auth_codes_witness :
    (ErrVal.codeObj "INVALID_CREDENTIALS").code? = some "INVALID_CREDENTIALS"
      ∧ "INVALID_CREDENTIALS" ∈ authErrorCodes
      ∧ (1 : Nat) ≤ profileRetryStrategy.maxRetries
      ∧ AuthRetryStrategy.shouldRetry profileRetryStrategy 1
          (ErrVal.codeObj "INVALID_CREDENTIALS") = false :=
  ⟨rfl, by decide, by decide,
    authRetryStrategy_refuses_auth_codes profileRetryStrategy 1 _ _ rfl (by decide)⟩

/-- C10: whenever two argument lists derive the same memo key, a memoized
function called on the first and then on the second returns the cached
result of the first call — key equality, not argument equality, decides
cache hits. -/
theorem memoize_returns_stale_on_key_collision {U : Type} (f : List MemoVal → U)
    (a b : List MemoVal) (h : createMemoKey a = createMemoKey b) :
    (memoizedCall f (memoizedCall f (memoEmpty U) a).2 b).1 = f a := by
  simp [memoizedCall, memoEmpty, memoLookup, h]

/-- C10 witness: `[1,2,3]` and `[1,9,3]` (equal length, equal boundary
elements) collide on the key "[3:1...3]", so the second call returns the
cached sum 6 even though the second array sums to 13. -/
theorem memoize_key_collision_witness :
    createMemoKey cexArgsA = createMemoKey cexArgsB
      ∧ (memoizedCall sumFirstArray (memoizedCall sumFirstArray (memoEmpty Int) cexArgsA).2
          cexArgsB).1 = sumFirstArray cexArgsA
      ∧ sumFirstArray cexArgsA = 6 ∧ sumFirstArray cexArgsB = 13 :=
  ⟨rfl, memoize_returns_stale_on_key_collision sumFirstArray cexArgsA cexArgsB rfl, rfl, rfl⟩
